import Mathlib

/-!
Verification of the dispatch-and-failover core of the qwen proxy server.

The development shallowly embeds two source components:

* `src/utils/request.js` — the request dispatcher (`sendChatRequest`,
  `generateChatID`): bounded retry loops around two upstream HTTP calls,
  with transient-network-error classification and proxy rotation.
  Upstream HTTP outcomes are abstracted into oracles (one outcome per
  POST issued); the account manager (`account.js`, whose internals are
  outside the dispatcher) is abstracted into a record of total state
  transformers, exactly the three operations the dispatcher invokes.

* `src/utils/data-persistence.js` — the persistence layer.  The source
  file contains two concatenated historical versions of the
  `DataPersistence` class; both are embedded (`initV1`/`getDataV1`/
  `saveDataV1` for the first, `getDataV2` for the second).  JSON
  (de)serialization is abstracted: the backing store holds either
  nothing, an unparsable blob, or a parsed document.
-/

namespace QwenProxy

/-! ## JavaScript-level helpers -/

/-- A thrown JavaScript error as the dispatcher observes it: an optional
`code` property and a `message` string. -/
structure JsError where
  code : Option String
  message : String
deriving DecidableEq, Repr

/-- Does the second character list start with the first? -/
def listStarts : List Char → List Char → Bool
  | [], _ => true
  | _ :: _, [] => false
  | c :: cs, d :: ds => c == d && listStarts cs ds

/-- Does `pat` occur as a contiguous run inside the second list? -/
def listSub (pat : List Char) : List Char → Bool
  | [] => pat.isEmpty
  | c :: rest => listStarts pat (c :: rest) || listSub pat rest

/-- Decidable substring test on the underlying character lists, modelling
JavaScript `String.prototype.includes`. -/
def strContains (s pat : String) : Bool :=
  listSub pat.toList s.toList

/-- `request.js` lines 91 and 168: the retryable error-code list. -/
def networkErrorCodes : List String :=
  ["ECONNRESET", "ECONNREFUSED", "ETIMEDOUT", "ENOTFOUND", "ENETUNREACH", "EAI_AGAIN"]

/-- `request.js` lines 92 and 169: the transient-network classification of a
thrown error — a listed code, or message text containing `timeout`, `ECONN`
or `socket`. -/
def isNetworkError (e : JsError) : Bool :=
  (match e.code with
   | some c => networkErrorCodes.contains c
   | none => false)
  || strContains e.message "timeout"
  || strContains e.message "ECONN"
  || strContains e.message "socket"

/-- JavaScript truthiness of the optional identifier field
(`response_data.data?.data?.id` in phase A, `chat_id` in phase B):
present and not the empty string. -/
def truthyId : Option String → Bool
  | none => false
  | some s => s != ""

/-- `request.js` line 155: the error recorded for a resolved response with
no identifier field. -/
def invalidResponseError : JsError :=
  ⟨none, "Invalid response data when generating chat_id"⟩

/-- `request.js` line 77: the error recorded for a resolved completion
response whose HTTP status is not 200. -/
def statusCodeError (status : Nat) : JsError :=
  ⟨none, "Request failed with status code " ++ toString status⟩

/-- The `TypeError` JavaScript would throw at `request.js` line 104 or 181
if `lastError` were still `null` when its `message` property is read. -/
def nullMessageError : JsError :=
  ⟨none, "Cannot read properties of null reading message"⟩

/-! ## The account-manager boundary -/

/-- The account record handed out by `accountManager.getNextAccount()`,
restricted to the two fields the dispatcher destructures. -/
structure AccountInfo where
  token : String
  email : String
deriving DecidableEq, Repr

/-- The three `account.js` operations the dispatcher calls, abstracted as
total functions over an opaque manager state `σ`.  `getNextAccount` and
`getProxyForAccount` may advance internal state (rotation cursor, fresh
proxy binding); `handleNetworkFailure` rotates the proxy bound to the
account. -/
structure AccountManager (σ : Type) where
  getNextAccount : σ → Option AccountInfo × σ
  getProxyForAccount : σ → String → Option String × σ
  handleNetworkFailure : σ → String → String → σ

/-! ## Upstream HTTP outcomes -/

/-- Outcome of one `POST /api/v2/chats/new` (phase A).  A fulfilled promise
carries the optional `data.data.id` field; a rejected promise carries the
thrown error. -/
inductive NewChatOutcome where
  | resolved (idField : Option String)
  | rejected (e : JsError)
deriving DecidableEq, Repr

/-- Outcome of one `POST /api/v2/chat/completions` (phase B): a fulfilled
promise with HTTP status and payload, or a rejected promise. -/
inductive CompletionOutcome where
  | resolved (status : Nat) (payload : String)
  | rejected (e : JsError)
deriving DecidableEq, Repr

/-! ## Phase A — `generateChatID` (`request.js` lines 114-183) -/

/-- Result of a `generateChatID` run.  `outcome` is `Except.ok` for a
normal return (`some id` or `null`) and `Except.error` for a JavaScript
exception escaping the function; `state` is the manager state on exit;
`lastError` is the value of the local `lastError` variable on exit;
`postCalls` counts the upstream POSTs issued. -/
structure GenResult (σ : Type) where
  outcome : Except JsError (Option String)
  state : σ
  lastError : Option JsError
  postCalls : Nat

/-- The `for` loop of `generateChatID`.  Arguments after the oracle:
current attempt number, remaining attempts (fuel), `currentProxy`,
`lastError`, POSTs issued so far, manager state.  On fuel exhaustion the
function logs `lastError.message` (line 181): if `lastError` were `null`
this would throw, modelled by `Except.error nullMessageError`. -/
def generateChatIDLoop {σ : Type} (M : AccountManager σ) (token model email : String)
    (oracle : Nat → NewChatOutcome) :
    Nat → Nat → Option String → Option JsError → Nat → σ → GenResult σ
  | _, 0, _, lastError, calls, s =>
    match lastError with
    | some _ => ⟨Except.ok none, s, lastError, calls⟩
    | none => ⟨Except.error nullMessageError, s, none, calls⟩
  | attempt, fuel + 1, currentProxy, lastError, calls, s =>
    match oracle attempt with
    | NewChatOutcome.resolved idField =>
      if truthyId idField then
        ⟨Except.ok idField, s, lastError, calls + 1⟩
      else
        generateChatIDLoop M token model email oracle (attempt + 1) fuel currentProxy
          (some invalidResponseError) (calls + 1) s
    | NewChatOutcome.rejected e =>
      match currentProxy with
      | some p =>
        if isNetworkError e then
          let s' := M.handleNetworkFailure s email p
          let pr := M.getProxyForAccount s' email
          generateChatIDLoop M token model email oracle (attempt + 1) fuel pr.1
            (some e) (calls + 1) pr.2
        else ⟨Except.ok none, s, some e, calls + 1⟩
      | none => ⟨Except.ok none, s, some e, calls + 1⟩

/-- `generateChatID(initialToken, model, email, initialProxy)`: runs the
loop with `MAX_RETRIES = 3`, attempt 1, no recorded error. -/
def generateChatID {σ : Type} (M : AccountManager σ) (token model email : String)
    (initialProxy : Option String) (oracle : Nat → NewChatOutcome) (s : σ) : GenResult σ :=
  generateChatIDLoop M token model email oracle 1 3 initialProxy none 0 s

/-! ## Phase B — `sendChatRequest` (`request.js` lines 15-106) -/

/-- The value `sendChatRequest` returns to its caller: the success record
`{currentToken, status:true, response}` or the tagged failure
`{status:false, response:null}`. -/
inductive ChatResponse where
  | success (response : String) (currentToken : String)
  | failure
deriving DecidableEq, Repr

/-- The request body, restricted to the two fields the dispatcher reads. -/
structure RequestBody where
  model : String
  stream : Bool
deriving DecidableEq, Repr

/-- Result of a `sendChatRequest` run.  `result` is `Except.error` if a
JavaScript exception would escape the function; `upstreamCalls` counts all
upstream POSTs (phase A and phase B); `accountSelections` counts the
`getNextAccount()` invocations. -/
structure SendResult (σ : Type) where
  result : Except JsError ChatResponse
  state : σ
  lastError : Option JsError
  upstreamCalls : Nat
  accountSelections : Nat

/-- The outer `for` loop of `sendChatRequest`.  Arguments after the
oracles: attempt number, fuel, `lastError`, POSTs so far, account
selections so far, manager state.  The `catch` block (lines 80-100) is
inlined at both throw sites (an exception escaping `generateChatID`, and a
rejected completion POST): transient network error with a bound proxy →
report to the manager and continue; otherwise break, which reaches the
final tagged-failure return. -/
def sendLoop {σ : Type} (M : AccountManager σ) (body : RequestBody)
    (genOracle : Nat → Nat → NewChatOutcome) (compOracle : Nat → CompletionOutcome) :
    Nat → Nat → Option JsError → Nat → Nat → σ → SendResult σ
  | _, 0, lastError, calls, sels, s =>
    match lastError with
    | some _ => ⟨Except.ok ChatResponse.failure, s, lastError, calls, sels⟩
    | none => ⟨Except.error nullMessageError, s, none, calls, sels⟩
  | attempt, fuel + 1, lastError, calls, sels, s =>
    match M.getNextAccount s with
    | (none, s1) => ⟨Except.ok ChatResponse.failure, s1, lastError, calls, sels + 1⟩
    | (some acc, s1) =>
      let pr := M.getProxyForAccount s1 acc.email
      let g := generateChatID M acc.token body.model acc.email pr.1 (genOracle attempt) pr.2
      match g.outcome with
      | Except.error e =>
        match pr.1 with
        | some p =>
          if isNetworkError e then
            sendLoop M body genOracle compOracle (attempt + 1) fuel (some e)
              (calls + g.postCalls) (sels + 1) (M.handleNetworkFailure g.state acc.email p)
          else ⟨Except.ok ChatResponse.failure, g.state, some e, calls + g.postCalls, sels + 1⟩
        | none => ⟨Except.ok ChatResponse.failure, g.state, some e, calls + g.postCalls, sels + 1⟩
      | Except.ok idField =>
        if truthyId idField then
          match compOracle attempt with
          | CompletionOutcome.resolved status payload =>
            if status == 200 then
              ⟨Except.ok (ChatResponse.success payload acc.token), g.state, lastError,
                calls + g.postCalls + 1, sels + 1⟩
            else
              sendLoop M body genOracle compOracle (attempt + 1) fuel
                (some (statusCodeError status)) (calls + g.postCalls + 1) (sels + 1) g.state
          | CompletionOutcome.rejected e =>
            match pr.1 with
            | some p =>
              if isNetworkError e then
                sendLoop M body genOracle compOracle (attempt + 1) fuel (some e)
                  (calls + g.postCalls + 1) (sels + 1)
                  (M.handleNetworkFailure g.state acc.email p)
              else ⟨Except.ok ChatResponse.failure, g.state, some e,
                calls + g.postCalls + 1, sels + 1⟩
            | none => ⟨Except.ok ChatResponse.failure, g.state, some e,
                calls + g.postCalls + 1, sels + 1⟩
        else ⟨Except.ok ChatResponse.failure, g.state, lastError, calls + g.postCalls, sels + 1⟩

/-- `sendChatRequest(body)`: the outer loop with `MAX_RETRIES = 3`. -/
def sendChatRequest {σ : Type} (M : AccountManager σ) (body : RequestBody)
    (genOracle : Nat → Nat → NewChatOutcome) (compOracle : Nat → CompletionOutcome)
    (s : σ) : SendResult σ :=
  sendLoop M body genOracle compOracle 1 3 none 0 0 s

/-! ## Persistence layer — `data-persistence.js`

JavaScript objects whose values the persistence methods treat opaquely are
modelled as association lists over an arbitrary value type `V`; the first
binding of a key is its value, and assignment replaces in place (matching
object enumeration order, which is all deep equality observes). -/

/-- A JavaScript object as a key/value association list. -/
abbrev Obj (V : Type) := List (String × V)

/-- Property read `o[k]`. -/
def objGet {V : Type} (k : String) : Obj V → Option V
  | [] => none
  | (k1, v1) :: rest => if k1 = k then some v1 else objGet k rest

/-- Property write `o[k] = v`: replaces the existing binding in place, or
appends a new one (JavaScript key-insertion order). -/
def objSet {V : Type} (k : String) (v : V) : Obj V → Obj V
  | [] => [(k, v)]
  | (k1, v1) :: rest => if k1 = k then (k, v) :: rest else (k1, v1) :: objSet k v rest

/-- Object spread `{...a, ...b}`: every binding of `b` written into `a`. -/
def objMerge {V : Type} (a b : Obj V) : Obj V :=
  b.foldl (fun acc kv => objSet kv.1 kv.2 acc) a

/-- The persisted root document: the four top-level keys of `data.json`
(`_getDefaultData`, lines 70-77).  Accounts are objects carrying at least
an `email` property. -/
structure Doc (V : Type) where
  accounts : List (Obj V)
  proxyBindings : Obj V
  proxyStatuses : Obj V
  settings : Obj V
deriving DecidableEq, Repr

/-- `_getDefaultData()`: all four keys present and empty. -/
def defaultData {V : Type} : Doc V :=
  ⟨[], [], [], []⟩

/-- `DATA_SAVE_MODE`: `none`, `file`, or `redis`. -/
inductive PMode where
  | nomode
  | file
  | redis
deriving DecidableEq, Repr

/-- What the backing store (file contents or redis key) holds, with JSON
parsing abstracted: nothing (`ENOENT` / null key), an unparsable blob
(`JSON.parse` throws), or a document. -/
inductive StoredContent (V : Type) where
  | absent
  | corrupt
  | valid (d : Doc V)
deriving DecidableEq, Repr

/-- State of the first (`data-persistence.js` lines 6-133) version of the
class after successful construction: mode, in-memory cache, backing
store. -/
structure V1State (V : Type) where
  mode : PMode
  cache : Option (Doc V)
  backing : StoredContent V
deriving DecidableEq, Repr

/-- `_saveData(data)` (v1 lines 56-68, identical in v2 lines 187-199):
sets the cache first, then attempts the backing write; a write failure
(`writeOk = false`) is caught and logged, leaving the backing store as it
was.  Mode `none` never writes. -/
def saveDataV1 {V : Type} (s : V1State V) (d : Doc V) (writeOk : Bool) : V1State V :=
  { s with
    cache := some d
    backing :=
      match s.mode with
      | PMode.nomode => s.backing
      | _ => if writeOk then StoredContent.valid d else s.backing }

/-- `_initialize()` of the first version (lines 15-49).  File mode: a
missing file creates and saves the default document; a corrupt file
rethrows, rejecting the memoized promise (`Except.error`).  Redis mode: a
null key falls back to the default in memory with no write-back; corrupt
data rethrows.  Mode `none` caches the default. -/
def initV1 {V : Type} (mode : PMode) (backing : StoredContent V) (writeOk : Bool) :
    Except Unit (V1State V) :=
  match mode, backing with
  | PMode.file, StoredContent.valid d => Except.ok ⟨mode, some d, backing⟩
  | PMode.file, StoredContent.absent =>
      Except.ok (saveDataV1 ⟨mode, none, backing⟩ defaultData writeOk)
  | PMode.file, StoredContent.corrupt => Except.error ()
  | PMode.redis, StoredContent.valid d => Except.ok ⟨mode, some d, backing⟩
  | PMode.redis, StoredContent.absent => Except.ok ⟨mode, some defaultData, backing⟩
  | PMode.redis, StoredContent.corrupt => Except.error ()
  | PMode.nomode, b => Except.ok ⟨mode, some defaultData, b⟩

/-- `_getData()` of the first version (lines 51-54): awaits the memoized
promise — a rejected one rejects every load — then returns
`this.cache || this._getDefaultData()`. -/
def getDataV1 {V : Type} (store : Except Unit (V1State V)) : Except Unit (Doc V) :=
  match store with
  | Except.error e => Except.error e
  | Except.ok s => Except.ok (s.cache.getD defaultData)

/-- Result of `_getData()` of the second version: the returned document
and the cache and backing store afterwards. -/
structure V2Result (V : Type) where
  doc : Doc V
  cache : Option (Doc V)
  backing : StoredContent V
deriving DecidableEq, Repr

/-- `_getData()` of the second version (lines 160-185).  A populated cache
is returned as is.  File mode: `ENOENT` saves and returns the default;
any other failure (corrupt data) is logged and falls through to
`return this._getDefaultData()` without setting the cache.  Redis mode: a
null key caches the default; corrupt data returns the default uncached.
Mode `none` always returns a fresh default, never caching. -/
def getDataV2 {V : Type} (mode : PMode) (cache : Option (Doc V))
    (backing : StoredContent V) (writeOk : Bool) : V2Result V :=
  match cache with
  | some d => ⟨d, some d, backing⟩
  | none =>
    match mode, backing with
    | PMode.file, StoredContent.valid d => ⟨d, some d, backing⟩
    | PMode.file, StoredContent.absent =>
        ⟨defaultData, some defaultData,
          if writeOk then StoredContent.valid defaultData else backing⟩
    | PMode.file, StoredContent.corrupt => ⟨defaultData, none, backing⟩
    | PMode.redis, StoredContent.valid d => ⟨d, some d, backing⟩
    | PMode.redis, StoredContent.absent => ⟨defaultData, some defaultData, backing⟩
    | PMode.redis, StoredContent.corrupt => ⟨defaultData, none, backing⟩
    | PMode.nomode, b => ⟨defaultData, none, b⟩

/-- `findIndex(acc => acc.email === email)` over the account list.  The
`email` argument ranges over property values. -/
def findAccountIdx {V : Type} [DecidableEq V] (email : V) : List (Obj V) → Option Nat
  | [] => none
  | a :: rest =>
    if objGet "email" a = some email then some 0
    else (findAccountIdx email rest).map (fun n => n + 1)

/-- The document transform of `saveAccount(email, accountData)` (lines
84-93): merge into the account found by email, or append
`{ email, ...accountData }`. -/
def saveAccountDoc {V : Type} [DecidableEq V] (d : Doc V) (email : V) (accountData : Obj V) : Doc V :=
  match findAccountIdx email d.accounts with
  | some i =>
      { d with accounts := d.accounts.set i (objMerge ((d.accounts[i]?).getD []) accountData) }
  | none =>
      { d with accounts := d.accounts ++ [objMerge [("email", email)] accountData] }

/-- The document transform of `saveProxyBinding(email, proxyUrl)` (lines
100-104): `data.proxyBindings[email] = proxyUrl`. -/
def saveProxyBindingDoc {V : Type} (d : Doc V) (email : String) (proxyUrl : V) : Doc V :=
  { d with proxyBindings := objSet email proxyUrl d.proxyBindings }

/-- The document transform of `saveSetting(key, value)` (lines 122-129):
`data.settings[key] = value` (the `!data.settings` guard is vacuous here
because the embedded document always carries the key). -/
def saveSettingDoc {V : Type} (d : Doc V) (key : String) (value : V) : Doc V :=
  { d with settings := objSet key value d.settings }

/-! ## Concrete instances used by witnesses and counterexamples -/

/-- Manager state for witness runs: a log of the operations performed,
most recent first. -/
abbrev LogS := List String

/-- A logging account manager: always yields the account
`tok / a@b`, always binds the proxy `socks5://p`, and records every
operation in the state. -/
def logM : AccountManager LogS :=
  ⟨fun s => (some ⟨"tok", "a@b"⟩, "next" :: s),
   fun s e => (some "socks5://p", ("proxy:" ++ e) :: s),
   fun s e p => ("fail:" ++ e ++ ":" ++ p) :: s⟩

/-- An account manager with no usable account. -/
def emptyM : AccountManager LogS :=
  ⟨fun s => (none, "next" :: s),
   fun s e => (none, ("proxy:" ++ e) :: s),
   fun s e p => ("fail:" ++ e ++ ":" ++ p) :: s⟩

/-- A transient network error: listed code. -/
def netErr : JsError := ⟨some "ECONNRESET", "read ECONNRESET"⟩

/-- A non-network application error: unlisted code, no socket text. -/
def appErr : JsError := ⟨some "EAUTH", "bad credentials"⟩

/-- Phase-A oracle whose first attempt resolves without an identifier and
whose later attempts resolve with one. -/
def cexGenOracle : Nat → NewChatOutcome :=
  fun n => if n = 1 then NewChatOutcome.resolved none else NewChatOutcome.resolved (some "id2")

/-- Phase-A oracle that always resolves with an identifier. -/
def goodGenOracle : Nat → Nat → NewChatOutcome :=
  fun _ _ => NewChatOutcome.resolved (some "cid")

/-- Phase-A oracle that always resolves without an identifier. -/
def badGenOracle : Nat → Nat → NewChatOutcome :=
  fun _ _ => NewChatOutcome.resolved none

/-- Completion oracle: HTTP 500 on the first outer attempt, HTTP 200
afterwards. -/
def cexCompOracle : Nat → CompletionOutcome :=
  fun n => if n = 1 then CompletionOutcome.resolved 500 "bad" else CompletionOutcome.resolved 200 "good"

/-- Completion oracle that always succeeds. -/
def okCompOracle : Nat → CompletionOutcome :=
  fun _ => CompletionOutcome.resolved 200 "good"

/-- Phase-A oracle that always rejects with a transient network error. -/
def downGenOracle : Nat → NewChatOutcome :=
  fun _ => NewChatOutcome.rejected netErr

/-- Phase-A oracle that always rejects with a non-network error. -/
def appErrGenOracle : Nat → NewChatOutcome :=
  fun _ => NewChatOutcome.rejected appErr

/-- Completion oracle that always rejects with a non-network error. -/
def appRejCompOracle : Nat → CompletionOutcome :=
  fun _ => CompletionOutcome.rejected appErr

/-- Completion oracle that always rejects with a transient network error. -/
def netRejCompOracle : Nat → CompletionOutcome :=
  fun _ => CompletionOutcome.rejected netErr

/-- Completion oracle that always resolves with HTTP 500. -/
def non200CompOracle : Nat → CompletionOutcome :=
  fun _ => CompletionOutcome.resolved 500 "bad"

/-- A sample persisted document used by frame-condition witnesses. -/
def sampleDoc : Doc String :=
  ⟨[[("email", "a"), ("t", "1")], [("email", "b")]],
   [("a", "P")], [("P", "ok")], [("k0", "v0")]⟩

/-! # Lemmas about the embedding -/

/-! ## Object and list helper lemmas -/

theorem objGet_objSet_self {V : Type} (o : Obj V) (k : String) (v : V) :
    objGet k (objSet k v o) = some v := by
  induction o with
  | nil => simp [objSet, objGet]
  | cons kv rest ih =>
    obtain ⟨k1, v1⟩ := kv
    by_cases h : k1 = k
    · subst h; simp [objSet, objGet]
    · simp [objSet, objGet, h, ih]

theorem objGet_objSet_ne {V : Type} (o : Obj V) {k k2 : String} (v : V) (h : k2 ≠ k) :
    objGet k2 (objSet k v o) = objGet k2 o := by
  have hk : ¬(k = k2) := fun hh => h hh.symm
  induction o with
  | nil => simp [objSet, objGet, hk]
  | cons kv rest ih =>
    obtain ⟨k1, v1⟩ := kv
    by_cases h1 : k1 = k
    · subst h1; simp [objSet, objGet, hk]
    · simp [objSet, objGet, h1, ih]

theorem findAccountIdx_lt {V : Type} [DecidableEq V] (email : V) :
    ∀ (l : List (Obj V)) (i : Nat), findAccountIdx email l = some i → i < l.length := by
  intro l
  induction l with
  | nil => intro i h; exact absurd h (by simp [findAccountIdx])
  | cons a rest ih =>
    intro i h
    unfold findAccountIdx at h
    by_cases he : objGet "email" a = some email
    · rw [if_pos he] at h
      cases h
      exact Nat.succ_pos _
    · rw [if_neg he] at h
      cases hr : findAccountIdx email rest with
      | none => rw [hr] at h; cases h
      | some j =>
        rw [hr] at h
        simp only [Option.map_some', Option.some.injEq] at h
        subst h
        simpa using Nat.succ_lt_succ (ih j hr)

/-! ## Step lemmas for the phase-A loop -/

theorem genLoop_success {σ : Type} {M : AccountManager σ} {tk md em : String}
    {oracle : Nat → NewChatOutcome} {a f : Nat} {pr : Option String}
    {le : Option JsError} {c : Nat} {s : σ} {idf : Option String}
    (h : oracle a = NewChatOutcome.resolved idf) (ht : truthyId idf = true) :
    generateChatIDLoop M tk md em oracle a (f + 1) pr le c s =
      ⟨Except.ok idf, s, le, c + 1⟩ := by
  simp [generateChatIDLoop, h, ht]

theorem genLoop_malformed {σ : Type} {M : AccountManager σ} {tk md em : String}
    {oracle : Nat → NewChatOutcome} {a f : Nat} {pr : Option String}
    {le : Option JsError} {c : Nat} {s : σ} {idf : Option String}
    (h : oracle a = NewChatOutcome.resolved idf) (ht : truthyId idf = false) :
    generateChatIDLoop M tk md em oracle a (f + 1) pr le c s =
      generateChatIDLoop M tk md em oracle (a + 1) f pr (some invalidResponseError) (c + 1) s := by
  simp [generateChatIDLoop, h, ht]

theorem genLoop_reject_transient {σ : Type} {M : AccountManager σ} {tk md em : String}
    {oracle : Nat → NewChatOutcome} {a f : Nat} {p : String}
    {le : Option JsError} {c : Nat} {s : σ} {e : JsError}
    (h : oracle a = NewChatOutcome.rejected e) (hn : isNetworkError e = true) :
    generateChatIDLoop M tk md em oracle a (f + 1) (some p) le c s =
      generateChatIDLoop M tk md em oracle (a + 1) f
        (M.getProxyForAccount (M.handleNetworkFailure s em p) em).1 (some e) (c + 1)
        (M.getProxyForAccount (M.handleNetworkFailure s em p) em).2 := by
  simp [generateChatIDLoop, h, hn]

theorem genLoop_reject_break {σ : Type} {M : AccountManager σ} {tk md em : String}
    {oracle : Nat → NewChatOutcome} {a f : Nat} {pr : Option String}
    {le : Option JsError} {c : Nat} {s : σ} {e : JsError}
    (h : oracle a = NewChatOutcome.rejected e)
    (hor : pr = none ∨ isNetworkError e = false) :
    generateChatIDLoop M tk md em oracle a (f + 1) pr le c s =
      ⟨Except.ok none, s, some e, c + 1⟩ := by
  rcases hor with hor | hor
  · subst hor; simp [generateChatIDLoop, h]
  · cases pr with
    | none => simp [generateChatIDLoop, h]
    | some p => simp [generateChatIDLoop, h, hor]

theorem genLoop_exhaust {σ : Type} {M : AccountManager σ} {tk md em : String}
    {oracle : Nat → NewChatOutcome} {a : Nat} {pr : Option String}
    {c : Nat} {s : σ} {e : JsError} :
    generateChatIDLoop M tk md em oracle a 0 pr (some e) c s =
      ⟨Except.ok none, s, some e, c⟩ := by
  simp [generateChatIDLoop]

theorem genLoop_postCalls_le {σ : Type} (M : AccountManager σ) (tk md em : String)
    (oracle : Nat → NewChatOutcome) :
    ∀ (f a : Nat) (pr : Option String) (le : Option JsError) (c : Nat) (s : σ),
      (generateChatIDLoop M tk md em oracle a f pr le c s).postCalls ≤ c + f := by
  intro f
  induction f with
  | zero =>
    intro a pr le c s
    cases le <;> simp [generateChatIDLoop]
  | succ f ih =>
    intro a pr le c s
    rcases h : oracle a with idf | e
    · by_cases ht : truthyId idf = true
      · rw [genLoop_success h ht]
        show c + 1 ≤ c + (f + 1)
        omega
      · rw [genLoop_malformed h (by simpa using ht)]
        calc (generateChatIDLoop M tk md em oracle (a + 1) f pr
              (some invalidResponseError) (c + 1) s).postCalls ≤ (c + 1) + f := ih _ _ _ _ _
          _ = c + (f + 1) := by omega
    · cases pr with
      | none =>
        rw [genLoop_reject_break h (Or.inl rfl)]
        show c + 1 ≤ c + (f + 1)
        omega
      | some p =>
        by_cases hn : isNetworkError e = true
        · rw [genLoop_reject_transient h hn]
          calc (generateChatIDLoop M tk md em oracle (a + 1) f
                (M.getProxyForAccount (M.handleNetworkFailure s em p) em).1 (some e) (c + 1)
                (M.getProxyForAccount (M.handleNetworkFailure s em p) em).2).postCalls
              ≤ (c + 1) + f := ih _ _ _ _ _
            _ = c + (f + 1) := by omega
        · rw [genLoop_reject_break h (Or.inr (by simpa using hn))]
          show c + 1 ≤ c + (f + 1)
          omega

/-! ## Step lemmas for the phase-B loop -/

theorem sendLoop_noAccount {σ : Type} {M : AccountManager σ} {body : RequestBody}
    {gO : Nat → Nat → NewChatOutcome} {cO : Nat → CompletionOutcome}
    {a f : Nat} {le : Option JsError} {c k : Nat} {s s1 : σ}
    (hA : M.getNextAccount s = (none, s1)) :
    sendLoop M body gO cO a (f + 1) le c k s =
      ⟨Except.ok ChatResponse.failure, s1, le, c, k + 1⟩ := by
  simp [sendLoop, hA]

theorem sendLoop_genThrow_transient {σ : Type} {M : AccountManager σ} {body : RequestBody}
    {gO : Nat → Nat → NewChatOutcome} {cO : Nat → CompletionOutcome}
    {a f : Nat} {le : Option JsError} {c k : Nat} {s s1 s2 : σ}
    {acc : AccountInfo} {p : String} {e : JsError}
    (hA : M.getNextAccount s = (some acc, s1))
    (hP : M.getProxyForAccount s1 acc.email = (some p, s2))
    (hG : (generateChatID M acc.token body.model acc.email (some p) (gO a) s2).outcome =
      Except.error e)
    (hn : isNetworkError e = true) :
    sendLoop M body gO cO a (f + 1) le c k s =
      sendLoop M body gO cO (a + 1) f (some e)
        (c + (generateChatID M acc.token body.model acc.email (some p) (gO a) s2).postCalls)
        (k + 1)
        (M.handleNetworkFailure
          (generateChatID M acc.token body.model acc.email (some p) (gO a) s2).state
          acc.email p) := by
  simp [sendLoop, hA, hP, hG, hn]

theorem sendLoop_genThrow_break {σ : Type} {M : AccountManager σ} {body : RequestBody}
    {gO : Nat → Nat → NewChatOutcome} {cO : Nat → CompletionOutcome}
    {a f : Nat} {le : Option JsError} {c k : Nat} {s s1 s2 : σ}
    {acc : AccountInfo} {pq : Option String} {e : JsError}
    (hA : M.getNextAccount s = (some acc, s1))
    (hP : M.getProxyForAccount s1 acc.email = (pq, s2))
    (hG : (generateChatID M acc.token body.model acc.email pq (gO a) s2).outcome =
      Except.error e)
    (hor : pq = none ∨ isNetworkError e = false) :
    sendLoop M body gO cO a (f + 1) le c k s =
      ⟨Except.ok ChatResponse.failure,
        (generateChatID M acc.token body.model acc.email pq (gO a) s2).state, some e,
        c + (generateChatID M acc.token body.model acc.email pq (gO a) s2).postCalls,
        k + 1⟩ := by
  rcases hor with hor | hor
  · subst hor; simp [sendLoop, hA, hP, hG]
  · cases pq with
    | none => simp [sendLoop, hA, hP, hG]
    | some p => simp [sendLoop, hA, hP, hG, hor]

theorem sendLoop_genFalsy {σ : Type} {M : AccountManager σ} {body : RequestBody}
    {gO : Nat → Nat → NewChatOutcome} {cO : Nat → CompletionOutcome}
    {a f : Nat} {le : Option JsError} {c k : Nat} {s s1 s2 : σ}
    {acc : AccountInfo} {pq : Option String} {idf : Option String}
    (hA : M.getNextAccount s = (some acc, s1))
    (hP : M.getProxyForAccount s1 acc.email = (pq, s2))
    (hG : (generateChatID M acc.token body.model acc.email pq (gO a) s2).outcome =
      Except.ok idf)
    (hT : truthyId idf = false) :
    sendLoop M body gO cO a (f + 1) le c k s =
      ⟨Except.ok ChatResponse.failure,
        (generateChatID M acc.token body.model acc.email pq (gO a) s2).state, le,
        c + (generateChatID M acc.token body.model acc.email pq (gO a) s2).postCalls,
        k + 1⟩ := by
  simp [sendLoop, hA, hP, hG, hT]

theorem sendLoop_success {σ : Type} {M : AccountManager σ} {body : RequestBody}
    {gO : Nat → Nat → NewChatOutcome} {cO : Nat → CompletionOutcome}
    {a f : Nat} {le : Option JsError} {c k : Nat} {s s1 s2 : σ}
    {acc : AccountInfo} {pq : Option String} {idf : Option String}
    {st : Nat} {payload : String}
    (hA : M.getNextAccount s = (some acc, s1))
    (hP : M.getProxyForAccount s1 acc.email = (pq, s2))
    (hG : (generateChatID M acc.token body.model acc.email pq (gO a) s2).outcome =
      Except.ok idf)
    (hT : truthyId idf = true)
    (hC : cO a = CompletionOutcome.resolved st payload)
    (hst : (st == 200) = true) :
    sendLoop M body gO cO a (f + 1) le c k s =
      ⟨Except.ok (ChatResponse.success payload acc.token),
        (generateChatID M acc.token body.model acc.email pq (gO a) s2).state, le,
        c + (generateChatID M acc.token body.model acc.email pq (gO a) s2).postCalls + 1,
        k + 1⟩ := by
  simp [sendLoop, hA, hP, hG, hT, hC, hst]

theorem sendLoop_non200 {σ : Type} {M : AccountManager σ} {body : RequestBody}
    {gO : Nat → Nat → NewChatOutcome} {cO : Nat → CompletionOutcome}
    {a f : Nat} {le : Option JsError} {c k : Nat} {s s1 s2 : σ}
    {acc : AccountInfo} {pq : Option String} {idf : Option String}
    {st : Nat} {payload : String}
    (hA : M.getNextAccount s = (some acc, s1))
    (hP : M.getProxyForAccount s1 acc.email = (pq, s2))
    (hG : (generateChatID M acc.token body.model acc.email pq (gO a) s2).outcome =
      Except.ok idf)
    (hT : truthyId idf = true)
    (hC : cO a = CompletionOutcome.resolved st payload)
    (hst : (st == 200) = false) :
    sendLoop M body gO cO a (f + 1) le c k s =
      sendLoop M body gO cO (a + 1) f (some (statusCodeError st))
        (c + (generateChatID M acc.token body.model acc.email pq (gO a) s2).postCalls + 1)
        (k + 1)
        (generateChatID M acc.token body.model acc.email pq (gO a) s2).state := by
  simp [sendLoop, hA, hP, hG, hT, hC, hst]

theorem sendLoop_rejected_transient {σ : Type} {M : AccountManager σ} {body : RequestBody}
    {gO : Nat → Nat → NewChatOutcome} {cO : Nat → CompletionOutcome}
    {a f : Nat} {le : Option JsError} {c k : Nat} {s s1 s2 : σ}
    {acc : AccountInfo} {p : String} {idf : Option String} {e : JsError}
    (hA : M.getNextAccount s = (some acc, s1))
    (hP : M.getProxyForAccount s1 acc.email = (some p, s2))
    (hG : (generateChatID M acc.token body.model acc.email (some p) (gO a) s2).outcome =
      Except.ok idf)
    (hT : truthyId idf = true)
    (hC : cO a = CompletionOutcome.rejected e)
    (hn : isNetworkError e = true) :
    sendLoop M body gO cO a (f + 1) le c k s =
      sendLoop M body gO cO (a + 1) f (some e)
        (c + (generateChatID M acc.token body.model acc.email (some p) (gO a) s2).postCalls + 1)
        (k + 1)
        (M.handleNetworkFailure
          (generateChatID M acc.token body.model acc.email (some p) (gO a) s2).state
          acc.email p) := by
  simp [sendLoop, hA, hP, hG, hT, hC, hn]

theorem sendLoop_rejected_break {σ : Type} {M : AccountManager σ} {body : RequestBody}
    {gO : Nat → Nat → NewChatOutcome} {cO : Nat → CompletionOutcome}
    {a f : Nat} {le : Option JsError} {c k : Nat} {s s1 s2 : σ}
    {acc : AccountInfo} {pq : Option String} {idf : Option String} {e : JsError}
    (hA : M.getNextAccount s = (some acc, s1))
    (hP : M.getProxyForAccount s1 acc.email = (pq, s2))
    (hG : (generateChatID M acc.token body.model acc.email pq (gO a) s2).outcome =
      Except.ok idf)
    (hT : truthyId idf = true)
    (hC : cO a = CompletionOutcome.rejected e)
    (hor : pq = none ∨ isNetworkError e = false) :
    sendLoop M body gO cO a (f + 1) le c k s =
      ⟨Except.ok ChatResponse.failure,
        (generateChatID M acc.token body.model acc.email pq (gO a) s2).state, some e,
        c + (generateChatID M acc.token body.model acc.email pq (gO a) s2).postCalls + 1,
        k + 1⟩ := by
  rcases hor with hor | hor
  · subst hor; simp [sendLoop, hA, hP, hG, hT, hC]
  · cases pq with
    | none => simp [sendLoop, hA, hP, hG, hT, hC]
    | some p => simp [sendLoop, hA, hP, hG, hT, hC, hor]

theorem sendLoop_exhaust {σ : Type} {M : AccountManager σ} {body : RequestBody}
    {gO : Nat → Nat → NewChatOutcome} {cO : Nat → CompletionOutcome}
    {a : Nat} {c k : Nat} {s : σ} {e : JsError} :
    sendLoop M body gO cO a 0 (some e) c k s =
      ⟨Except.ok ChatResponse.failure, s, some e, c, k⟩ := by
  simp [sendLoop]

/-- The phase-B loop never lets a JavaScript exception escape, provided the
recorded `lastError` is non-null whenever the fuel is exhausted (true of
the entry point, which starts with fuel 3). -/
theorem sendLoop_no_throw {σ : Type} (M : AccountManager σ) (body : RequestBody)
    (gO : Nat → Nat → NewChatOutcome) (cO : Nat → CompletionOutcome) :
    ∀ (f a : Nat) (le : Option JsError) (c k : Nat) (s : σ),
      (f = 0 → le.isSome = true) →
      ∃ r, (sendLoop M body gO cO a f le c k s).result = Except.ok r := by
  intro f
  induction f with
  | zero =>
    intro a le c k s h
    cases le with
    | none => simp at h
    | some e => exact ⟨ChatResponse.failure, by rw [sendLoop_exhaust]⟩
  | succ f ih =>
    intro a le c k s _
    rcases hA : M.getNextAccount s with ⟨aopt, s1⟩
    cases aopt with
    | none => exact ⟨ChatResponse.failure, by rw [sendLoop_noAccount hA]⟩
    | some acc =>
      rcases hP : M.getProxyForAccount s1 acc.email with ⟨pq, s2⟩
      rcases hG : (generateChatID M acc.token body.model acc.email pq (gO a) s2).outcome
        with e | idf
      · cases pq with
        | none => exact ⟨ChatResponse.failure, by rw [sendLoop_genThrow_break hA hP hG (Or.inl rfl)]⟩
        | some p =>
          by_cases hn : isNetworkError e = true
          · rw [sendLoop_genThrow_transient hA hP hG hn]
            exact ih _ _ _ _ _ (fun _ => rfl)
          · exact ⟨ChatResponse.failure,
              by rw [sendLoop_genThrow_break hA hP hG (Or.inr (by simpa using hn))]⟩
      · by_cases hT : truthyId idf = true
        · rcases hC : cO a with ⟨st, payload⟩ | e
          · by_cases hst : (st == 200) = true
            · exact ⟨ChatResponse.success payload acc.token,
                by rw [sendLoop_success hA hP hG hT hC hst]⟩
            · rw [sendLoop_non200 hA hP hG hT hC (by simpa using hst)]
              exact ih _ _ _ _ _ (fun _ => rfl)
          · cases pq with
            | none => exact ⟨ChatResponse.failure,
                by rw [sendLoop_rejected_break hA hP hG hT hC (Or.inl rfl)]⟩
            | some p =>
              by_cases hn : isNetworkError e = true
              · rw [sendLoop_rejected_transient hA hP hG hT hC hn]
                exact ih _ _ _ _ _ (fun _ => rfl)
              · exact ⟨ChatResponse.failure,
                  by rw [sendLoop_rejected_break hA hP hG hT hC (Or.inr (by simpa using hn))]⟩
        · exact ⟨ChatResponse.failure,
            by rw [sendLoop_genFalsy hA hP hG (by simpa using hT)]⟩

/-! # Claim theorems -/

/-- C1: for every request body, manager behaviour and outcome of the
upstream calls, `sendChatRequest` returns either the success record
(status true, the HTTP-200 payload, the selected account's token) or
exactly the tagged failure; no exception escapes to the caller
(`Except.error` is unreachable). -/
theorem C1_sendChatRequest_uniform_result {σ : Type} (M : AccountManager σ)
    (body : RequestBody) (gO : Nat → Nat → NewChatOutcome)
    (cO : Nat → CompletionOutcome) (s : σ) :
    (sendChatRequest M body gO cO s).result = Except.ok ChatResponse.failure ∨
    ∃ payload token, (sendChatRequest M body gO cO s).result =
      Except.ok (ChatResponse.success payload token) := by
  obtain ⟨r, hr⟩ :=
    sendLoop_no_throw M body gO cO 3 1 none 0 0 s (fun h => absurd h (by decide))
  cases r with
  | success payload token => exact Or.inr ⟨payload, token, hr⟩
  | failure => exact Or.inl hr

/-- C2: in phase A, when every attempt fails with a transient network
error while a proxy is in use, each failure is reported to the manager
(`handleNetworkFailure`), the newly bound proxy is fetched
(`getProxyForAccount`) and the call is retried; after the third attempt
the loop exhausts and returns null with the last error recorded.  The
second conjunct bounds every run of phase A by 3 upstream attempts. -/
theorem C2_generateChatID_transient_retry {σ : Type} {M : AccountManager σ}
    {tk md em : String} {oracle : Nat → NewChatOutcome}
    {p0 p1 p2 : String} {p3 : Option String} {s0 s1 s1' s2 s2' s3 s3' : σ}
    {e1 e2 e3 : JsError}
    (h1 : oracle 1 = NewChatOutcome.rejected e1) (hn1 : isNetworkError e1 = true)
    (hf1 : M.handleNetworkFailure s0 em p0 = s1)
    (hp1 : M.getProxyForAccount s1 em = (some p1, s1'))
    (h2 : oracle 2 = NewChatOutcome.rejected e2) (hn2 : isNetworkError e2 = true)
    (hf2 : M.handleNetworkFailure s1' em p1 = s2)
    (hp2 : M.getProxyForAccount s2 em = (some p2, s2'))
    (h3 : oracle 3 = NewChatOutcome.rejected e3) (hn3 : isNetworkError e3 = true)
    (hf3 : M.handleNetworkFailure s2' em p2 = s3)
    (hp3 : M.getProxyForAccount s3 em = (p3, s3')) :
    generateChatID M tk md em (some p0) oracle s0 = ⟨Except.ok none, s3', some e3, 3⟩ ∧
    ∀ {σ' : Type} (M' : AccountManager σ') (tk' md' em' : String)
      (pr' : Option String) (or' : Nat → NewChatOutcome) (s' : σ'),
      (generateChatID M' tk' md' em' pr' or' s').postCalls ≤ 3 := by
  constructor
  · unfold generateChatID
    rw [genLoop_reject_transient h1 hn1]
    simp only [hf1, hp1]
    rw [genLoop_reject_transient h2 hn2]
    simp only [hf2, hp2]
    rw [genLoop_reject_transient h3 hn3]
    simp only [hf3, hp3]
    exact genLoop_exhaust
  · intro σ' M' tk' md' em' pr' or' s'
    simpa using genLoop_postCalls_le M' tk' md' em' or' 3 1 pr' none 0 s'

/-- C2 witness: a concrete three-transient-failure run against the logging
manager, exercising the theorem at explicit inputs. -/
theorem C2_witness :
    isNetworkError netErr = true ∧
    generateChatID logM "tok" "md" "a@b" (some "P") downGenOracle [] =
      ⟨Except.ok none,
        ["proxy:a@b", "fail:a@b:socks5://p", "proxy:a@b", "fail:a@b:socks5://p",
          "proxy:a@b", "fail:a@b:P"],
        some netErr, 3⟩ ∧
    (generateChatID logM "tok" "md" "a@b" (some "P") downGenOracle []).postCalls ≤ 3 :=
  ⟨rfl,
   (@C2_generateChatID_transient_retry LogS logM "tok" "md" "a@b" downGenOracle
     "P" "socks5://p" "socks5://p" (some "socks5://p") []
     ["fail:a@b:P"]
     ["proxy:a@b", "fail:a@b:P"]
     ["fail:a@b:socks5://p", "proxy:a@b", "fail:a@b:P"]
     ["proxy:a@b", "fail:a@b:socks5://p", "proxy:a@b", "fail:a@b:P"]
     ["fail:a@b:socks5://p", "proxy:a@b", "fail:a@b:socks5://p", "proxy:a@b", "fail:a@b:P"]
     ["proxy:a@b", "fail:a@b:socks5://p", "proxy:a@b", "fail:a@b:socks5://p",
       "proxy:a@b", "fail:a@b:P"]
     netErr netErr netErr rfl rfl rfl rfl rfl rfl rfl rfl rfl rfl rfl rfl).1,
   (@C2_generateChatID_transient_retry LogS logM "tok" "md" "a@b" downGenOracle
     "P" "socks5://p" "socks5://p" (some "socks5://p") []
     ["fail:a@b:P"]
     ["proxy:a@b", "fail:a@b:P"]
     ["fail:a@b:socks5://p", "proxy:a@b", "fail:a@b:P"]
     ["proxy:a@b", "fail:a@b:socks5://p", "proxy:a@b", "fail:a@b:P"]
     ["fail:a@b:socks5://p", "proxy:a@b", "fail:a@b:socks5://p", "proxy:a@b", "fail:a@b:P"]
     ["proxy:a@b", "fail:a@b:socks5://p", "proxy:a@b", "fail:a@b:socks5://p",
       "proxy:a@b", "fail:a@b:P"]
     netErr netErr netErr rfl rfl rfl rfl rfl rfl rfl rfl rfl rfl rfl rfl).2
     logM "tok" "md" "a@b" (some "P") downGenOracle []⟩

/-- C3 counterexample: the claim says a malformed response (resolved, no
identifier field) aborts phase A immediately with no further retry; in the
code it falls through the loop and is retried.  Here the first attempt is
malformed, yet a second POST is issued and its identifier is returned
(`postCalls = 2`), instead of the abort the claim requires. -/
theorem C3_counterexample :
    cexGenOracle 1 = NewChatOutcome.resolved none ∧
    truthyId none = false ∧
    generateChatID logM "tk" "md" "a@b" none cexGenOracle [] =
      ⟨Except.ok (some "id2"), [], some invalidResponseError, 2⟩ :=
  ⟨rfl, rfl, rfl⟩

/-- C3 (amended): a thrown failure that is not a transient network error
with a proxy in use aborts phase A immediately — one POST, no manager
interaction, null result, error recorded; a malformed resolved response
does not abort: it records `invalidResponseError` and retries with the
same proxy and manager state. -/
theorem C3_generateChatID_abort :
    (∀ (σ : Type) (M : AccountManager σ) (tk md em : String) (pr : Option String)
      (oracle : Nat → NewChatOutcome) (s : σ) (e : JsError),
      oracle 1 = NewChatOutcome.rejected e →
      (pr = none ∨ isNetworkError e = false) →
      generateChatID M tk md em pr oracle s = ⟨Except.ok none, s, some e, 1⟩) ∧
    (∀ (σ : Type) (M : AccountManager σ) (tk md em : String) (pr : Option String)
      (oracle : Nat → NewChatOutcome) (s : σ) (idf idg : Option String),
      oracle 1 = NewChatOutcome.resolved idf → truthyId idf = false →
      oracle 2 = NewChatOutcome.resolved idg → truthyId idg = true →
      generateChatID M tk md em pr oracle s =
        ⟨Except.ok idg, s, some invalidResponseError, 2⟩) := by
  constructor
  · intro σ M tk md em pr oracle s e h1 hor
    unfold generateChatID
    rw [genLoop_reject_break h1 hor]
  · intro σ M tk md em pr oracle s idf idg h1 ht1 h2 ht2
    unfold generateChatID
    rw [genLoop_malformed h1 ht1, genLoop_success h2 ht2]

/-- C3 witness: the amended theorem exercised at concrete inputs — a
non-network rejection with a proxy bound aborts at once, and a malformed
first response retries and succeeds on the second attempt. -/
theorem C3_witness :
    generateChatID logM "tk" "md" "a@b" (some "P") appErrGenOracle [] =
      ⟨Except.ok none, [], some appErr, 1⟩ ∧
    generateChatID logM "tk" "md" "a@b" none cexGenOracle [] =
      ⟨Except.ok (some "id2"), [], some invalidResponseError, 2⟩ :=
  ⟨C3_generateChatID_abort.1 LogS logM "tk" "md" "a@b" (some "P") appErrGenOracle [] appErr
     rfl (Or.inr rfl),
   C3_generateChatID_abort.2 LogS logM "tk" "md" "a@b" none cexGenOracle [] none (some "id2")
     rfl rfl rfl rfl⟩

/-- C4 counterexample: the claim says any completion failure other than
transient-with-proxy breaks out of the loop with no further attempts; in
the code a resolved non-200 response only records the error and the loop
proceeds.  Here attempt 1 resolves with HTTP 500 (a failure, not thrown,
not classified), yet a second account selection occurs
(`accountSelections = 2`) and the dispatch ends in success. -/
theorem C4_counterexample :
    cexCompOracle 1 = CompletionOutcome.resolved 500 "bad" ∧
    ((500 : Nat) == 200) = false ∧
    sendChatRequest logM ⟨"md", false⟩ goodGenOracle cexCompOracle [] =
      ⟨Except.ok (ChatResponse.success "good" "tok"),
        ["proxy:a@b", "next", "proxy:a@b", "next"],
        some (statusCodeError 500), 4, 2⟩ :=
  ⟨rfl, rfl, rfl⟩

/-- C4 (amended): on a failed completion attempt — with an account
selected, a proxy resolved and a session identifier obtained — a thrown
transient network error with an active proxy is reported to the manager
and the outer loop continues (re-selecting an account); a thrown
non-transient error, or any thrown error without a proxy, breaks out with
the tagged failure and the last error retained; a resolved non-200
response records the status error and continues the outer loop; fuel
exhaustion returns the tagged failure with the last error retained. -/
theorem C4_sendChatRequest_failure_paths {σ : Type} {M : AccountManager σ}
    {body : RequestBody} {gO : Nat → Nat → NewChatOutcome} {cO : Nat → CompletionOutcome}
    {s s1 s2 : σ} {acc : AccountInfo} {pq : Option String} {idf : Option String}
    (hA : M.getNextAccount s = (some acc, s1))
    (hP : M.getProxyForAccount s1 acc.email = (pq, s2))
    (hG : (generateChatID M acc.token body.model acc.email pq (gO 1) s2).outcome =
      Except.ok idf)
    (hT : truthyId idf = true) :
    (∀ e : JsError, cO 1 = CompletionOutcome.rejected e →
      (pq = none ∨ isNetworkError e = false) →
      sendChatRequest M body gO cO s =
        ⟨Except.ok ChatResponse.failure,
          (generateChatID M acc.token body.model acc.email pq (gO 1) s2).state, some e,
          (generateChatID M acc.token body.model acc.email pq (gO 1) s2).postCalls + 1, 1⟩) ∧
    (∀ (e : JsError) (p : String), cO 1 = CompletionOutcome.rejected e → pq = some p →
      isNetworkError e = true →
      sendChatRequest M body gO cO s =
        sendLoop M body gO cO 2 2 (some e)
          ((generateChatID M acc.token body.model acc.email pq (gO 1) s2).postCalls + 1) 1
          (M.handleNetworkFailure
            (generateChatID M acc.token body.model acc.email pq (gO 1) s2).state
            acc.email p)) ∧
    (∀ (st : Nat) (payload : String), cO 1 = CompletionOutcome.resolved st payload →
      (st == 200) = false →
      sendChatRequest M body gO cO s =
        sendLoop M body gO cO 2 2 (some (statusCodeError st))
          ((generateChatID M acc.token body.model acc.email pq (gO 1) s2).postCalls + 1) 1
          (generateChatID M acc.token body.model acc.email pq (gO 1) s2).state) ∧
    (∀ (a : Nat) (e : JsError) (c k : Nat) (s0 : σ),
      sendLoop M body gO cO a 0 (some e) c k s0 =
        ⟨Except.ok ChatResponse.failure, s0, some e, c, k⟩) := by
  refine ⟨?_, ?_, ?_, ?_⟩
  · intro e hC hor
    unfold sendChatRequest
    rw [sendLoop_rejected_break hA hP hG hT hC hor]
    simp [Nat.zero_add]
  · intro e p hC hpq hn
    subst hpq
    unfold sendChatRequest
    rw [sendLoop_rejected_transient hA hP hG hT hC hn]
    simp [Nat.zero_add]
  · intro st payload hC hst
    unfold sendChatRequest
    rw [sendLoop_non200 hA hP hG hT hC hst]
    simp [Nat.zero_add]
  · intro a e c k s0
    exact sendLoop_exhaust

/-- C4 witness: the amended theorem exercised against the logging manager
at concrete inputs for each of its four paths. -/
theorem C4_witness :
    sendChatRequest logM ⟨"md", false⟩ goodGenOracle appRejCompOracle [] =
      ⟨Except.ok ChatResponse.failure, ["proxy:a@b", "next"], some appErr, 2, 1⟩ ∧
    sendChatRequest logM ⟨"md", false⟩ goodGenOracle netRejCompOracle [] =
      sendLoop logM ⟨"md", false⟩ goodGenOracle netRejCompOracle 2 2 (some netErr) 2 1
        ["fail:a@b:socks5://p", "proxy:a@b", "next"] ∧
    sendChatRequest logM ⟨"md", false⟩ goodGenOracle non200CompOracle [] =
      sendLoop logM ⟨"md", false⟩ goodGenOracle non200CompOracle 2 2
        (some (statusCodeError 500)) 2 1 ["proxy:a@b", "next"] ∧
    sendLoop logM ⟨"md", false⟩ goodGenOracle non200CompOracle 5 0 (some appErr) 7 9 [] =
      ⟨Except.ok ChatResponse.failure, [], some appErr, 7, 9⟩ :=
  ⟨(@C4_sendChatRequest_failure_paths LogS logM ⟨"md", false⟩ goodGenOracle appRejCompOracle
      [] ["next"] ["proxy:a@b", "next"] ⟨"tok", "a@b"⟩ (some "socks5://p") (some "cid")
      rfl rfl rfl rfl).1 appErr rfl (Or.inr rfl),
   (@C4_sendChatRequest_failure_paths LogS logM ⟨"md", false⟩ goodGenOracle netRejCompOracle
      [] ["next"] ["proxy:a@b", "next"] ⟨"tok", "a@b"⟩ (some "socks5://p") (some "cid")
      rfl rfl rfl rfl).2.1 netErr "socks5://p" rfl rfl rfl,
   (@C4_sendChatRequest_failure_paths LogS logM ⟨"md", false⟩ goodGenOracle non200CompOracle
      [] ["next"] ["proxy:a@b", "next"] ⟨"tok", "a@b"⟩ (some "socks5://p") (some "cid")
      rfl rfl rfl rfl).2.2.1 500 "bad" rfl rfl,
   (@C4_sendChatRequest_failure_paths LogS logM ⟨"md", false⟩ goodGenOracle non200CompOracle
      [] ["next"] ["proxy:a@b", "next"] ⟨"tok", "a@b"⟩ (some "socks5://p") (some "cid")
      rfl rfl rfl rfl).2.2.2 5 appErr 7 9 []⟩

/-- C5: when phase A yields no usable session identifier, the dispatch is
aborted at once with the tagged failure — no completion POST is issued
beyond phase A's own calls and no second account selection occurs
(`accountSelections = 1`). -/
theorem C5_phaseA_failure_aborts {σ : Type} {M : AccountManager σ}
    {body : RequestBody} {gO : Nat → Nat → NewChatOutcome} {cO : Nat → CompletionOutcome}
    {s s1 s2 : σ} {acc : AccountInfo} {pq : Option String} {idf : Option String}
    (hA : M.getNextAccount s = (some acc, s1))
    (hP : M.getProxyForAccount s1 acc.email = (pq, s2))
    (hG : (generateChatID M acc.token body.model acc.email pq (gO 1) s2).outcome =
      Except.ok idf)
    (hT : truthyId idf = false) :
    sendChatRequest M body gO cO s =
      ⟨Except.ok ChatResponse.failure,
        (generateChatID M acc.token body.model acc.email pq (gO 1) s2).state, none,
        (generateChatID M acc.token body.model acc.email pq (gO 1) s2).postCalls, 1⟩ := by
  unfold sendChatRequest
  rw [sendLoop_genFalsy hA hP hG hT]
  simp [Nat.zero_add]

/-- C5 witness: phase A exhausts its three attempts on malformed responses;
the dispatch fails with one account selection and only phase A's three
POSTs. -/
theorem C5_witness :
    sendChatRequest logM ⟨"md", false⟩ badGenOracle okCompOracle [] =
      ⟨Except.ok ChatResponse.failure, ["proxy:a@b", "next"], none, 3, 1⟩ :=
  @C5_phaseA_failure_aborts LogS logM ⟨"md", false⟩ badGenOracle okCompOracle
    [] ["next"] ["proxy:a@b", "next"] ⟨"tok", "a@b"⟩ (some "socks5://p") none
    rfl rfl rfl rfl

/-- C6: when `getNextAccount` yields no usable account, `sendChatRequest`
fails immediately with the tagged failure: zero upstream POSTs and a
single account selection. -/
theorem C6_no_account_immediate_failure {σ : Type} {M : AccountManager σ}
    {body : RequestBody} {gO : Nat → Nat → NewChatOutcome} {cO : Nat → CompletionOutcome}
    {s s1 : σ}
    (hA : M.getNextAccount s = (none, s1)) :
    sendChatRequest M body gO cO s =
      ⟨Except.ok ChatResponse.failure, s1, none, 0, 1⟩ := by
  unfold sendChatRequest
  rw [sendLoop_noAccount hA]

/-- C6 witness: a manager with no account holding a usable token. -/
theorem C6_witness :
    sendChatRequest emptyM ⟨"md", false⟩ goodGenOracle okCompOracle [] =
      ⟨Except.ok ChatResponse.failure, ["next"], none, 0, 1⟩ :=
  @C6_no_account_immediate_failure LogS emptyM ⟨"md", false⟩ goodGenOracle okCompOracle
    [] ["next"] rfl

/-- C7: on an initialized store, a load after `save(doc)` returns a
document equal to `doc`, for every backend mode and even when the backing
write fails: `_saveData` installs the cache before attempting the write
and swallows write errors, and `_getData` serves from the cache.  The
further conjuncts record that the cache is set unconditionally and that a
failed write leaves the backing store untouched. -/
theorem C7_save_load_roundtrip {V : Type} (s : V1State V) (d : Doc V) (writeOk : Bool) :
    getDataV1 (Except.ok (saveDataV1 s d writeOk)) = Except.ok d ∧
    (saveDataV1 s d writeOk).cache = some d ∧
    (saveDataV1 s d false).backing = s.backing := by
  refine ⟨rfl, rfl, ?_⟩
  obtain ⟨m, ch, bk⟩ := s
  cases m <;> rfl

/-- C8 counterexample: the claim says a first load on an empty backing
store creates the default document with a synchronous save for a missing
file *or* an absent cache key; in remote-cache mode the absent key takes
the in-memory default with no write-back — even with a functioning
backend the store still holds nothing afterwards. -/
theorem C8_counterexample :
    initV1 (V := Unit) PMode.redis StoredContent.absent true =
      Except.ok ⟨PMode.redis, some defaultData, StoredContent.absent⟩ ∧
    (StoredContent.absent : StoredContent Unit) ≠ StoredContent.valid defaultData :=
  ⟨rfl, fun h => nomatch h⟩

/-- C8 (amended): the first-ever load on an empty backing store is not an
error and returns the default document with all four top-level keys
present and empty; in file mode the default document is also written back
synchronously during initialization, while in remote-cache mode the
default is adopted in memory only, with no write-back. -/
theorem C8_first_load_default {V : Type} :
    (∀ writeOk : Bool,
      getDataV1 (initV1 (V := V) PMode.file StoredContent.absent writeOk) =
        Except.ok defaultData) ∧
    getDataV1 (initV1 (V := V) PMode.redis StoredContent.absent true) =
      Except.ok defaultData ∧
    initV1 (V := V) PMode.file StoredContent.absent true =
      Except.ok ⟨PMode.file, some defaultData, StoredContent.valid defaultData⟩ ∧
    initV1 (V := V) PMode.redis StoredContent.absent true =
      Except.ok ⟨PMode.redis, some defaultData, StoredContent.absent⟩ ∧
    (defaultData (V := V)).accounts = [] ∧
    (defaultData (V := V)).proxyBindings = [] ∧
    (defaultData (V := V)).proxyStatuses = [] ∧
    (defaultData (V := V)).settings = [] := by
  refine ⟨fun writeOk => ?_, rfl, rfl, rfl, rfl, rfl, rfl, rfl⟩
  cases writeOk <;> rfl

/-- C9 counterexample: the claim says a corrupt persisted document on load
is logged and treated as the default; in the first version of the
component a corrupt document rejects the memoized initialization promise,
so every load fails instead of returning a default. -/
theorem C9_counterexample :
    getDataV1 (initV1 (V := Unit) PMode.file StoredContent.corrupt true) =
      Except.error () ∧
    getDataV1 (initV1 (V := Unit) PMode.redis StoredContent.corrupt true) =
      Except.error () :=
  ⟨rfl, rfl⟩

/-- C9 (amended): corrupt persisted data on load is handled divergently by
the two versions of the persistence component: the second version logs
the error and returns the default document (without caching it), while
the first version fails initialization and every load propagates the
error. -/
theorem C9_corrupt_load_behavior {V : Type} (writeOk : Bool) :
    getDataV2 (V := V) PMode.file none StoredContent.corrupt writeOk =
      ⟨defaultData, none, StoredContent.corrupt⟩ ∧
    getDataV2 (V := V) PMode.redis none StoredContent.corrupt writeOk =
      ⟨defaultData, none, StoredContent.corrupt⟩ ∧
    getDataV1 (initV1 (V := V) PMode.file StoredContent.corrupt writeOk) =
      Except.error () ∧
    getDataV1 (initV1 (V := V) PMode.redis StoredContent.corrupt writeOk) =
      Except.error () :=
  ⟨rfl, rfl, rfl, rfl⟩

/-- C10: each targeted mutator touches only its own entry of the document.
`saveProxyBinding` sets the one binding and leaves every other binding and
the other three top-level keys unchanged; `saveSetting` likewise for its
settings key; `saveAccount` merges into the account found by email (all
other list positions unchanged, length preserved) or appends a new
account, leaving bindings, statuses and settings unchanged. -/
theorem C10_mutator_frame {V : Type} [DecidableEq V] (d : Doc V) (em : String)
    (u : V) (k : String) (v : V) (ev : V) (ad : Obj V) :
    objGet em (saveProxyBindingDoc d em u).proxyBindings = some u ∧
    (∀ e2, e2 ≠ em →
      objGet e2 (saveProxyBindingDoc d em u).proxyBindings = objGet e2 d.proxyBindings) ∧
    (saveProxyBindingDoc d em u).accounts = d.accounts ∧
    (saveProxyBindingDoc d em u).proxyStatuses = d.proxyStatuses ∧
    (saveProxyBindingDoc d em u).settings = d.settings ∧
    objGet k (saveSettingDoc d k v).settings = some v ∧
    (∀ k2, k2 ≠ k → objGet k2 (saveSettingDoc d k v).settings = objGet k2 d.settings) ∧
    (saveSettingDoc d k v).accounts = d.accounts ∧
    (saveSettingDoc d k v).proxyBindings = d.proxyBindings ∧
    (saveSettingDoc d k v).proxyStatuses = d.proxyStatuses ∧
    (saveAccountDoc d ev ad).proxyBindings = d.proxyBindings ∧
    (saveAccountDoc d ev ad).proxyStatuses = d.proxyStatuses ∧
    (saveAccountDoc d ev ad).settings = d.settings ∧
    (∀ i, findAccountIdx ev d.accounts = some i →
      (saveAccountDoc d ev ad).accounts.length = d.accounts.length ∧
      (∀ j, j ≠ i → (saveAccountDoc d ev ad).accounts[j]? = d.accounts[j]?) ∧
      (saveAccountDoc d ev ad).accounts[i]? =
        some (objMerge ((d.accounts[i]?).getD []) ad)) ∧
    (findAccountIdx ev d.accounts = none →
      (saveAccountDoc d ev ad).accounts =
        d.accounts ++ [objMerge [("email", ev)] ad]) := by
  refine ⟨objGet_objSet_self _ _ _, fun e2 h2 => objGet_objSet_ne _ _ h2, rfl, rfl, rfl,
    objGet_objSet_self _ _ _, fun k2 h2 => objGet_objSet_ne _ _ h2, rfl, rfl, rfl,
    ?_, ?_, ?_, ?_, ?_⟩
  · cases hF : findAccountIdx ev d.accounts <;> simp [saveAccountDoc, hF]
  · cases hF : findAccountIdx ev d.accounts <;> simp [saveAccountDoc, hF]
  · cases hF : findAccountIdx ev d.accounts <;> simp [saveAccountDoc, hF]
  · intro i hF
    have hlt : i < d.accounts.length := findAccountIdx_lt ev d.accounts i hF
    refine ⟨?_, ?_, ?_⟩
    · simp [saveAccountDoc, hF]
    · intro j hj
      simp only [saveAccountDoc, hF]
      exact List.getElem?_set_ne (fun hh => hj hh.symm)
    · simp only [saveAccountDoc, hF]
      rw [List.getElem?_set_eq_of_lt _ hlt]
  · intro hF
    simp [saveAccountDoc, hF]

/-- C10 witness: the frame theorem exercised on a concrete document for
both the update and the append branch of `saveAccount`, and the disjoint
keys of the two map mutators. -/
theorem C10_witness :
    objGet "a" (saveProxyBindingDoc sampleDoc "a" "Q").proxyBindings = some "Q" ∧
    objGet "b" (saveProxyBindingDoc sampleDoc "a" "Q").proxyBindings =
      objGet "b" sampleDoc.proxyBindings ∧
    objGet "k1" (saveSettingDoc sampleDoc "k1" "v1").settings = some "v1" ∧
    objGet "k0" (saveSettingDoc sampleDoc "k1" "v1").settings =
      objGet "k0" sampleDoc.settings ∧
    (saveAccountDoc sampleDoc "a" [("t", "2")]).accounts.length =
      sampleDoc.accounts.length ∧
    (saveAccountDoc sampleDoc "a" [("t", "2")]).accounts[1]? = sampleDoc.accounts[1]? ∧
    (saveAccountDoc sampleDoc "a" [("t", "2")]).accounts[0]? =
      some (objMerge ((sampleDoc.accounts[0]?).getD []) [("t", "2")]) ∧
    (saveAccountDoc sampleDoc "c" [("t", "2")]).accounts =
      sampleDoc.accounts ++ [objMerge [("email", "c")] [("t", "2")]] := by
  have h1 := C10_mutator_frame sampleDoc "a" "Q" "k1" "v1" "a" [("t", "2")]
  have h2 := C10_mutator_frame sampleDoc "a" "Q" "k1" "v1" "c" [("t", "2")]
  exact ⟨h1.1, h1.2.1 "b" (by decide),
    h1.2.2.2.2.2.1, h1.2.2.2.2.2.2.1 "k0" (by decide),
    ((h1.2.2.2.2.2.2.2.2.2.2.2.2.2.1) 0 rfl).1,
    ((h1.2.2.2.2.2.2.2.2.2.2.2.2.2.1) 0 rfl).2.1 1 (by decide),
    ((h1.2.2.2.2.2.2.2.2.2.2.2.2.2.1) 0 rfl).2.2,
    h2.2.2.2.2.2.2.2.2.2.2.2.2.2.2 rfl⟩

end QwenProxy
